import Mathlib

set_option maxHeartbeats 1000000

/-! Verification development for the IAQ monitoring dashboard server
(src/server/index.js) and the client trend helper (src/client/src/App.jsx).

JavaScript numbers are modelled as `Option ℚ`: `none` stands for a missing,
non-numeric or non-finite value (NaN), `some q` for a finite number.  All
arithmetic appearing in the embedded code paths is exact on the rationals. -/

/-- JS numeric value: `none` models NaN / missing / non-finite, `some q` a finite number. -/
abbrev JsNum := Option ℚ

/-- NaN-propagating subtraction (`last - first` in the trend helpers). -/
def jsSub : JsNum → JsNum → JsNum
  | some a, some b => some (a - b)
  | _, _ => none

/-- NaN-propagating absolute value (`Math.abs`). -/
def jsAbs : JsNum → JsNum
  | some a => some |a|
  | none => none

/-- `Math.max(1, x)`; NaN when the argument is NaN. -/
def jsMax1 : JsNum → JsNum
  | some a => some (max 1 a)
  | none => none

/-- NaN-propagating division (denominators in the embedded paths are ≥ 1). -/
def jsDiv : JsNum → JsNum → JsNum
  | some a, some b => some (a / b)
  | _, _ => none

/-- JS comparison `x < c`: false when `x` is NaN. -/
def jsLtC : JsNum → ℚ → Bool
  | some a, c => decide (a < c)
  | none, _ => false

/-- JS comparison `x > c`: false when `x` is NaN. -/
def jsGtC : JsNum → ℚ → Bool
  | some a, c => decide (c < a)
  | none, _ => false

/-- JS comparison `x >= c`: false when `x` is NaN (also models
`Number.isFinite(x) && x >= c`). -/
def jsGeC : JsNum → ℚ → Bool
  | some a, c => decide (c ≤ a)
  | none, _ => false

/-- Substring occurrence test; the JS regexes being modelled are alternations of
plain literals, so `pat` occurring in `s` is exactly what `regex.test(s)` checks. -/
def containsSub (s pat : String) : Bool := (s.splitOn pat).length != 1

/-- One row of the `readings` table / one reading record on the wire.
`predicted_iaq` and `current_iaq` are nullable in general; ingestion
guarantees a finite `predicted_iaq` for stored rows (proved below). -/
structure Row where
  id : Nat
  ts : Int
  pm25 : JsNum
  voc : JsNum
  c2h5oh : JsNum
  co : JsNum
  predicted_iaq : JsNum
  current_iaq : JsNum
deriving DecidableEq, Repr

/-- `adjustForFrontend` (src/server/index.js:69): show `predicted_iaq` reduced
by 180 to frontend consumers when it is a finite number; leave every other
field, and non-finite `predicted_iaq`, untouched. -/
def adjustForFrontend (row : Row) : Row :=
  { row with predicted_iaq := row.predicted_iaq.map (· - 180) }

/-- Lexicographic key order used by `ORDER BY ts ..., id ...`: `a` is
chronologically no later than `b`. -/
def keyLe (a b : Row) : Prop := a.ts < b.ts ∨ (a.ts = b.ts ∧ a.id ≤ b.id)

/-- Descending variant of `keyLe` (`ORDER BY ts DESC, id DESC`). -/
def keyDesc (a b : Row) : Prop := keyLe b a

instance : DecidableRel keyLe := fun a b => by unfold keyLe; infer_instance

instance : DecidableRel keyDesc := fun a b => by unfold keyDesc; infer_instance

theorem keyLe_total (a b : Row) : keyLe a b ∨ keyLe b a := by
  unfold keyLe
  rcases lt_trichotomy a.ts b.ts with h | h | h
  · exact Or.inl (Or.inl h)
  · rcases Nat.le_total a.id b.id with h2 | h2
    · exact Or.inl (Or.inr ⟨h, h2⟩)
    · exact Or.inr (Or.inr ⟨h.symm, h2⟩)
  · exact Or.inr (Or.inl h)

theorem keyLe_trans {a b c : Row} (h1 : keyLe a b) (h2 : keyLe b c) : keyLe a c := by
  unfold keyLe at *
  rcases h1 with h1 | ⟨h1, h1'⟩ <;> rcases h2 with h2 | ⟨h2, h2'⟩
  · exact Or.inl (h1.trans h2)
  · exact Or.inl (h2 ▸ h1)
  · exact Or.inl (h1 ▸ h2)
  · exact Or.inr ⟨h1.trans h2, h1'.trans h2'⟩

instance : IsTotal Row keyDesc := ⟨fun a b => keyLe_total b a⟩

instance : IsTrans Row keyDesc := ⟨fun _ _ _ h1 h2 => keyLe_trans h2 h1⟩

/-- `SELECT * FROM readings ORDER BY ts DESC, id DESC` as a sort of the table. -/
def sortDesc (db : List Row) : List Row := List.insertionSort keyDesc db

/-- `SELECT * FROM readings ORDER BY ts DESC, id DESC LIMIT 1`. -/
def latestRow (db : List Row) : Option Row := (sortDesc db).head?

/-- Limit parsing in `app.get("/history")` (src/server/index.js:278):
`none` models an absent or non-numeric `limit` query parameter (`parseInt`
returned NaN or the default string "500" was used); otherwise the parsed
integer is clamped to `[1, 5000]`. -/
def limitOf : Option Int → Nat
  | none => 500
  | some n => (min (max n 1) 5000).toNat

/-- Rows produced by the `/history` SQL query followed by `.reverse()`:
the most recent `k` rows, in chronological order. -/
def historyRaw (db : List Row) (k : Nat) : List Row := ((sortDesc db).take k).reverse

/-- Full `/history` response data: chronological rows, display-adjusted. -/
def historyResponse (db : List Row) (q : Option Int) : List Row :=
  (historyRaw db (limitOf q)).map adjustForFrontend

/-- `/latest` response data: the latest row, display-adjusted. -/
def latestResponse (db : List Row) : Option Row := (latestRow db).map adjustForFrontend

/-- `app.get("/emergency-check")` (src/server/index.js:574): true iff a latest
row exists and its raw stored `predicted_iaq` is finite and ≥ 300. -/
def emergencyCheck (db : List Row) : Bool :=
  match latestRow db with
  | none => false
  | some latest => jsGeC latest.predicted_iaq 300

/-- CSV cell rendering: SQL NULL becomes the empty string, numbers are printed. -/
def optShow : JsNum → String
  | none => ""
  | some q => toString q

/-- One CSV data line of `/export.csv`, built from the RAW stored fields. -/
def csvFields (r : Row) : List String :=
  [toString r.id, toString r.ts, optShow r.pm25, optShow r.voc, optShow r.c2h5oh,
   optShow r.co, optShow r.predicted_iaq, optShow r.current_iaq]

/-- Order of the export query `ORDER BY ts ASC`. -/
def tsAsc (a b : Row) : Prop := a.ts ≤ b.ts

instance : DecidableRel tsAsc := fun a b => by unfold tsAsc; infer_instance

/-- `SELECT ... FROM readings ORDER BY ts ASC` as a sort of the table. -/
def sortTsAsc (db : List Row) : List Row := List.insertionSort tsAsc db

/-- Data lines of `/export.csv`: raw stored values, chronological. -/
def exportCsvRows (db : List Row) : List (List String) := (sortTsAsc db).map csvFields

/-- Request body of `app.post("/data")`; `none` in a numeric field models a
missing, non-numeric or non-finite JSON value. -/
structure IngestBody where
  ts : Option Int
  pm25 : JsNum
  voc : JsNum
  c2h5oh : JsNum
  co : JsNum
  predicted_iaq : JsNum
  current_iaq : JsNum
deriving DecidableEq, Repr

/-- HTTP-level result of the ingestion endpoint. -/
inductive IngestResult
  | badRequest (msg : String)
  | serverError (msg : String)
  | okId (id : Nat)
deriving DecidableEq, Repr

/-- Observable side effects of the ingestion endpoint, in program order. -/
inductive Ev
  | stored (r : Row)
  | broadcast (r : Row)
deriving DecidableEq, Repr

/-- True exactly for the 4xx validation failures. -/
def IngestResult.is400 : IngestResult → Bool
  | .badRequest _ => true
  | _ => false

/-- `app.post("/data")` (src/server/index.js:207): validate the four sensor
fields, derive the value stored in the NOT NULL `predicted_iaq` column, insert
(`insertErr = some m` models a failing sqlite callback), then broadcast the
display-adjusted stored row.  The returned event list records the durable
write and the broadcast in program order. -/
def postData (now : Int) (nextId : Nat) (body : IngestBody) (insertErr : Option String) :
    IngestResult × List Ev :=
  let ts := body.ts.getD now
  match body.pm25, body.voc, body.c2h5oh, body.co with
  | some pm25, some voc, some c2h5oh, some co =>
    let predToStore : JsNum :=
      match body.predicted_iaq with
      | some p => some p
      | none => body.current_iaq
    match predToStore with
    | none => (.badRequest "Missing predicted_iaq and no valid current_iaq fallback", [])
    | some pred =>
      match insertErr with
      | some m => (.serverError m, [])
      | none =>
        let storedRow : Row :=
          { id := nextId, ts := ts, pm25 := some pm25, voc := some voc,
            c2h5oh := some c2h5oh, co := some co,
            predicted_iaq := some pred, current_iaq := body.current_iaq }
        (.okId nextId, [.stored storedRow, .broadcast (adjustForFrontend storedRow)])
  | _, _, _, _ => (.badRequest "Invalid numeric sensor fields", [])

/-- Server-side `trend` helper defined inside `app.post("/chat")`
(src/server/index.js:336).  It does NOT filter non-finite entries, it returns
the string "insufficient" (not "insufficient data") for short inputs, and it
relies on the caller to pre-slice the last 16 readings.  NaN propagation of
the JS arithmetic is modelled by the `js*` helpers. -/
def trend (values : List JsNum) : String :=
  if values.length < 4 then "insufficient"
  else
    let first := values.headD none
    let last := values.getLastD none
    let delta := jsSub last first
    let mag := jsAbs delta
    let base := jsMax1 (jsAbs first)
    let rel := jsDiv mag base
    if jsLtC mag (1/100) then "steady"
    else if jsLtC rel (1/20) then (if jsGtC delta 0 then "slightly rising" else "slightly falling")
    else if jsGtC delta 0 then "rising" else "falling"

/-- Client-side `deriveTrend` (src/client/src/App.jsx:65): filter out
non-finite entries, require at least 4, window to the last 16, then classify
by magnitude and relative change. -/
def deriveTrend (values : List JsNum) : String :=
  let arr := values.filterMap id
  if arr.length < 4 then "insufficient data"
  else
    let windowed := arr.drop (arr.length - 16)
    let first := windowed.headD 0
    let last := windowed.getLastD 0
    let delta := last - first
    let mag := |delta|
    let base := max 1 |first|
    let rel := mag / base
    if mag < 1/100 then "steady"
    else if rel < 1/20 then (if 0 < delta then "slightly rising" else "slightly falling")
    else if 0 < delta then "rising" else "falling"

/-- Trend algorithm exactly as worded in the specification (§4.4), written
independently of the code: filter non-finite entries, fewer than 4 remaining
gives "insufficient data", take the last 16 values (here spelled as a
reverse/take/reverse), `delta = last - first`, `magnitude = |delta|`,
`base = max(1, |first|)`, `relative = magnitude / base`, then threshold. -/
def trendSpec (values : List JsNum) : String :=
  let arr := values.filterMap id
  if arr.length < 4 then "insufficient data"
  else
    let windowed := (arr.reverse.take 16).reverse
    let first := windowed.headD 0
    let last := windowed.getLastD 0
    let delta := last - first
    let magnitude := |delta|
    let base := max 1 |first|
    let relative := magnitude / base
    if magnitude < 1/100 then "steady"
    else if relative < 1/20 then (if 0 < delta then "slightly rising" else "slightly falling")
    else if 0 < delta then "rising" else "falling"

/-- One household member as consumed by `personalizeTextForProfile` and
`buildProfileSummary`; `age` is the JS `Number(m.age)` (NaN when absent or
non-numeric). -/
structure Member where
  name : String
  relation : String
  age : JsNum
  conditions : List String
deriving DecidableEq, Repr

/-- Parsed `preferences_json` of a profile row. -/
structure Preferences where
  shareWithGemini : Bool
  receiveNotifications : Bool
deriving DecidableEq, Repr

/-- Latest stored household profile (parsed). -/
structure Profile where
  owner_name : String
  members : List Member
  preferences : Preferences
deriving DecidableEq, Repr

/-- The regex `/asthma|copd|bronch/i` applied to one condition string. -/
def respConditionTest (c : String) : Bool :=
  containsSub c.toLower "asthma" || containsSub c.toLower "copd" || containsSub c.toLower "bronch"

/-- Some condition of the member matches the respiratory pattern. -/
def memberHasRespiratory (m : Member) : Bool := m.conditions.any respConditionTest

/-- `Number(m.age) >= 60` (false when age is NaN). -/
def memberIsElder (m : Member) : Bool := jsGeC m.age 60

/-- Fixed respiratory safety clause appended by `personalizeTextForProfile`. -/
def respClause : String :=
  " Note: Because someone in your home has a respiratory condition, prioritize protective steps and consult a healthcare provider if symptoms occur."

/-- Fixed elderly safety clause appended by `personalizeTextForProfile`. -/
def elderClause : String :=
  " Also, keep elderly family members out of exposure and seek medical help for dizziness or breathing difficulty."

/-- `personalizeTextForProfile` (src/server/index.js:144). -/
def personalizeTextForProfile (text : String) (profile : Option Profile) : String :=
  match profile with
  | none => text
  | some p =>
    let text1 := if p.members.any memberHasRespiratory then text ++ respClause else text
    if p.members.any memberIsElder then text1 ++ elderClause else text1

/-- Per-sensor / IAQ category buckets computed by `analyzeLifestyleContext`. -/
structure Categories where
  iaq : String
  pm25 : String
  voc : String
  etoh : String
  co : String
deriving DecidableEq, Repr

/-- The context object built by `analyzeLifestyleContext`; `categories = none`
models the empty `{}` left in place when `latest` is absent. -/
structure LifestyleCtx where
  latest : Option Row
  recentCount : Nat
  categories : Option Categories
deriving DecidableEq, Repr

/-- `analyzeLifestyleContext` (src/server/index.js:160): fixed threshold
buckets per sensor and a 6-band IAQ bucket; with NaN inputs every comparison
is false, so the last branch is taken, exactly as in JS. -/
def analyzeLifestyleContext (latest : Option Row) (recent : List Row) : LifestyleCtx :=
  match latest with
  | none => { latest := none, recentCount := recent.length, categories := none }
  | some l =>
    { latest := some l, recentCount := recent.length,
      categories := some {
        iaq := if jsGeC l.predicted_iaq 300 then "hazardous"
               else if jsGeC l.predicted_iaq 200 then "very-unhealthy"
               else if jsGeC l.predicted_iaq 150 then "unhealthy"
               else if jsGeC l.predicted_iaq 100 then "usg"
               else if jsGeC l.predicted_iaq 50 then "moderate" else "good",
        pm25 := if jsGtC l.pm25 100 then "high" else if jsGtC l.pm25 50 then "elevated" else "ok",
        voc := if jsGtC l.voc 600 then "high" else if jsGtC l.voc 300 then "elevated" else "ok",
        etoh := if jsGtC l.c2h5oh 500 then "high" else if jsGtC l.c2h5oh 200 then "elevated" else "ok",
        co := if jsGtC l.co 20 then "high" else if jsGtC l.co 9 then "elevated" else "ok" } }

/-- Primary sentence of the ≥300 tier. -/
def tierLine300 : String :=
  "Emergency: Move to fresh air if feeling unwell. Increase ventilation immediately (open windows, use exhaust fans). Avoid sources like cooking or solvents."

/-- Primary sentence of the ≥200 tier. -/
def tierLine200 : String :=
  "Air quality is very unhealthy. Ventilate now, pause activities that emit fumes, and consider wearing a well-fitted mask while ventilating."

/-- Primary sentence of the ≥150 tier. -/
def tierLine150 : String :=
  "Air quality is unhealthy. Open windows, run kitchen/bath exhaust, and reduce indoor emission sources for the next hour."

/-- Primary sentence of the ≥100 tier (sensitive individuals). -/
def tierLine100 : String :=
  "Air quality may affect sensitive individuals. Ventilate and avoid strong cleaners or aerosols for a while."

/-- Primary sentence of the acceptable tier. -/
def tierLine0 : String :=
  "Air quality looks acceptable. Keep light ventilation and monitor for changes."

/-- Supplementary tip for PM2.5 category "high" (source control). -/
def tipPm25 : String := "Reduce dust and cooking smoke; use exhaust hoods during cooking."

/-- Supplementary tip for VoC category not "ok" (ventilation). -/
def tipVoc : String := "Minimize VOC sources (paints, cleaners, aerosols); ventilate during and after use."

/-- Supplementary tip for CO category not "ok" (combustion sources). -/
def tipCo : String := "Ensure no combustion sources indoors; ventilate and step outside if headaches or dizziness occur."

/-- Default primary sentence when no IAQ tier line was produced. -/
def defaultPrimary : String := "Maintain light ventilation and monitor."

/-- Result of the local rule engine. -/
structure Advice where
  primary : String
  tips : List String
deriving DecidableEq, Repr

/-- `getResearchBasedAdvice` (src/server/index.js:182): one tier sentence by
IAQ severity, then up to 3 supplementary tips in a fixed order. -/
def getResearchBasedAdvice (latest : Option Row) (ctx : LifestyleCtx) : Advice :=
  let iaq : JsNum := latest.bind Row.predicted_iaq
  let lines : List String :=
    match iaq with
    | some q =>
      [if 300 ≤ q then tierLine300
       else if 200 ≤ q then tierLine200
       else if 150 ≤ q then tierLine150
       else if 100 ≤ q then tierLine100
       else tierLine0]
    | none => []
  let items : List String :=
    (if (ctx.categories.map Categories.pm25) = some "high" then [tipPm25] else []) ++
    (if (ctx.categories.map Categories.voc) ≠ some "ok" then [tipVoc] else []) ++
    (if (ctx.categories.map Categories.co) ≠ some "ok" then [tipCo] else [])
  { primary := lines.headD defaultPrimary, tips := items.take 3 }

/-- Parsed outcome of one HTTP round trip to the generative provider:
`ok`/`status` from the transport response, `hasError`/`errMsg` from the
payload `data.error` (with `some ""` modelling a present-but-empty message),
`blockReason` from `promptFeedback.blockReason` or the first candidate's
`finishReason`, and `text` the concatenated candidate part texts. -/
structure GenResponse where
  ok : Bool
  status : Nat
  hasError : Bool
  errMsg : Option String
  blockReason : Option String
  text : String
deriving DecidableEq, Repr

/-- Outcome of one fetch attempt: a thrown transport exception or a response. -/
inductive Outcome
  | exn (msg : String)
  | resp (r : GenResponse)
deriving DecidableEq, Repr

/-- `data?.error?.message || "Upstream error (status N)"`: the payload message
when present and non-empty, else the synthesized status message. -/
def errMessage (r : GenResponse) : String :=
  match r.errMsg with
  | some m => if m.isEmpty then "Upstream error (status " ++ toString r.status ++ ")" else m
  | none => "Upstream error (status " ++ toString r.status ++ ")"

/-- The retryable-message regex
`/overloaded|not found|unsupported|unavailable|unrecognized|quota|rate limit/i`. -/
def retryableMsg (msg : String) : Bool :=
  containsSub msg.toLower "overloaded" || containsSub msg.toLower "not found" ||
  containsSub msg.toLower "unsupported" || containsSub msg.toLower "unavailable" ||
  containsSub msg.toLower "unrecognized" || containsSub msg.toLower "quota" ||
  containsSub msg.toLower "rate limit"

/-- `resp.status === 404 || resp.status === 429 || resp.status === 503`. -/
def retryableStatus (s : Nat) : Bool := s == 404 || s == 429 || s == 503

/-- `blockedReason && String(blockedReason).toUpperCase().includes("SAFETY")`. -/
def safetyBlocked (r : GenResponse) : Bool :=
  match r.blockReason with
  | some b => !b.isEmpty && containsSub b.toUpper "SAFETY"
  | none => false

/-- Per-candidate classification outcome of the fallback loop body. -/
inductive StepResult
  | retry (lastError : String)
  | abort (msg : String)
  | blocked (reason : String)
  | accept (text : String)
deriving DecidableEq, Repr

/-- One iteration of the model fallback loop (src/server/index.js:409 and 537):
a thrown exception records the error and continues; a non-success status or a
payload error continues when retryable and aborts otherwise; a safety block
(checked only on the chat path, `checkSafety = true`) stops with a blocked
response; empty text continues; non-empty text is accepted. -/
def stepClassify (checkSafety : Bool) : Outcome → StepResult
  | .exn m => .retry m
  | .resp r =>
    if !r.ok || r.hasError then
      let message := errMessage r
      if retryableMsg message || retryableStatus r.status then .retry message
      else .abort message
    else if checkSafety && safetyBlocked r then .blocked (r.blockReason.getD "")
    else if r.text.trim.isEmpty then .retry "Empty response from model"
    else .accept r.text

/-- Exit states of the fallback loop over the candidate list. -/
inductive ChainResult
  | accepted (text : String)
  | blockedOut (reason : String)
  | aborted (msg : String)
  | exhausted
deriving DecidableEq, Repr

/-- The fallback loop: consume candidates in order; `oracle` gives the outcome
of attempting each model identifier. -/
def runChain (checkSafety : Bool) (oracle : String → Outcome) : List String → ChainResult
  | [] => .exhausted
  | m :: rest =>
    match stepClassify checkSafety (oracle m) with
    | .retry _ => runChain checkSafety oracle rest
    | .abort msg => .aborted msg
    | .blocked reason => .blockedOut reason
    | .accept t => .accepted t

/-- Number of provider attempts the loop performs on the given candidates. -/
def attemptsUsed (checkSafety : Bool) (oracle : String → Outcome) : List String → Nat
  | [] => 0
  | m :: rest =>
    match stepClassify checkSafety (oracle m) with
    | .retry _ => 1 + attemptsUsed checkSafety oracle rest
    | _ => 1

/-- Insertion-ordered de-duplication, as performed by
`Array.from(new Set(list))` (first occurrence kept). -/
def dedupFrom (seen : List String) : List String → List String
  | [] => []
  | x :: xs => if x ∈ seen then dedupFrom seen xs else x :: dedupFrom (x :: seen) xs

/-- `Array.from(new Set(l))`. -/
def dedup (l : List String) : List String := dedupFrom [] l

/-- The fixed fallback sequence appended after the configured model. -/
def fallbackModels : List String :=
  ["gemini-2.5-flash", "gemini-2.0-flash", "gemini-1.5-flash-latest"]

/-- `Array.from(new Set([GEMINI_MODEL, ...fallbacks]))`. -/
def modelsToTry (geminiModel : String) : List String := dedup (geminiModel :: fallbackModels)

/-- HTTP-level view of an advisory response: status code, `ok` flag of the
JSON body, and the answer / error / advice text carried by the body. -/
structure ApiResp where
  status : Nat
  ok : Bool
  body : String
deriving DecidableEq, Repr

/-- Fixed educational disclaimer appended on the local chat path. -/
def chatDisclaimer : String :=
  "\n\nThis is educational guidance, not medical advice. If symptoms occur, seek professional care."

/-- Note appended when the chat chain exhausts and falls back locally. -/
def chatTempFallbackNote : String :=
  "\n\n(Temporary fallback because AI model was unavailable)"

/-- `shareWithGemini` gate (src/server/index.js:371, 469, 522):
`!!(profile?.preferences?.shareWithGemini && GEMINI_API_KEY)`. -/
def shareGate (profile : Option Profile) (apiKey : String) : Bool :=
  match profile with
  | none => false
  | some p => p.preferences.shareWithGemini && !apiKey.isEmpty

/-- Local rule-engine answer built on the privacy-off chat path
(src/server/index.js:374-389), before the disclaimer is appended. -/
def localChatAnswer (profile : Option Profile) (latest : Option Row) (tail : List Row) : String :=
  let ctx := analyzeLifestyleContext latest tail
  let adviceObj := getResearchBasedAdvice latest ctx
  let base :=
    match ctx.categories with
    | some c => "Here’s what I see. Projected IAQ is " ++ c.iaq ++ ". " ++ adviceObj.primary
    | none => "Here’s what I see.  " ++ adviceObj.primary
  let withTips :=
    if adviceObj.tips.isEmpty then base
    else base ++ "\n\nOther tips:\n- " ++ String.intercalate "\n- " adviceObj.tips
  personalizeTextForProfile withTips profile

/-- Full privacy-off chat response (status 200, ok:true, disclaimer appended). -/
def localChatResp (profile : Option Profile) (latest : Option Row) (tail : List Row) : ApiResp :=
  { status := 200, ok := true, body := localChatAnswer profile latest tail ++ chatDisclaimer }

/-- Mapping of the chat chain exit state to the HTTP response
(src/server/index.js:409-454). -/
def chatFromChain (localFallbackAnswer : String) : ChainResult → ApiResp
  | .accepted t => { status := 200, ok := true, body := t }
  | .blockedOut reason =>
    { status := 200, ok := false,
      body := "Response blocked by safety filter (" ++ reason ++ "). Try rephrasing the question." }
  | .aborted msg => { status := 502, ok := false, body := msg }
  | .exhausted =>
    { status := 200, ok := true, body := localFallbackAnswer ++ chatTempFallbackNote }

/-- The chat handler from the profile load onwards (src/server/index.js:369):
privacy gate, then either the provider chain with local exhaustion fallback,
or the purely local path. Also returns the number of provider attempts made. -/
def chatCore (profile : Option Profile) (apiKey geminiModel : String)
    (latest : Option Row) (tail : List Row) (oracle : String → Outcome) : ApiResp × Nat :=
  if shareGate profile apiKey then
    let ctx := analyzeLifestyleContext latest tail
    let adviceObj := getResearchBasedAdvice latest ctx
    (chatFromChain (personalizeTextForProfile adviceObj.primary profile)
       (runChain true oracle (modelsToTry geminiModel)),
     attemptsUsed true oracle (modelsToTry geminiModel))
  else
    (localChatResp profile latest tail, 0)

/-- Local advice text of the lifestyle endpoints (src/server/index.js:564-566). -/
def lifestyleLocalText (profile : Option Profile) (latest : Option Row) (recent : List Row) : String :=
  let context := analyzeLifestyleContext latest recent
  let adviceObj := getResearchBasedAdvice latest context
  personalizeTextForProfile adviceObj.primary profile ++
    " This is educational guidance, not medical advice."

/-- Mapping of the lifestyle chain exit state to the HTTP response; the
lifestyle loop has no safety-block branch, so `blockedOut` is unreachable
there (proved below) and mapped arbitrarily. -/
def lifestyleFromChain (localText : String) : ChainResult → ApiResp
  | .accepted t => { status := 200, ok := true, body := t }
  | .blockedOut reason => { status := 200, ok := false, body := reason }
  | .aborted msg => { status := 502, ok := false, body := msg }
  | .exhausted => { status := 200, ok := true, body := localText }

/-- The POST lifestyle-advice handler from the profile load onwards
(src/server/index.js:520-567). -/
def lifestyleCore (profile : Option Profile) (apiKey geminiModel : String)
    (latest : Option Row) (recent : List Row) (oracle : String → Outcome) : ApiResp × Nat :=
  if shareGate profile apiKey then
    (lifestyleFromChain (lifestyleLocalText profile latest recent)
       (runChain false oracle (modelsToTry geminiModel)),
     attemptsUsed false oracle (modelsToTry geminiModel))
  else
    ({ status := 200, ok := true, body := lifestyleLocalText profile latest recent }, 0)

theorem deriveTrend_eq_trendSpec (values : List JsNum) : deriveTrend values = trendSpec values := by
  unfold deriveTrend trendSpec
  simp only [List.take_reverse, List.reverse_reverse]

theorem dedupFrom_nodup (l : List String) :
    ∀ seen, (dedupFrom seen l).Nodup ∧ ∀ x ∈ dedupFrom seen l, x ∉ seen := by
  induction l with
  | nil => intro seen; simp [dedupFrom]
  | cons x xs ih =>
    intro seen
    by_cases hx : x ∈ seen
    · simpa [dedupFrom, hx] using ih seen
    · have h2 := ih (x :: seen)
      rw [dedupFrom, if_neg hx]
      refine ⟨List.nodup_cons.mpr ⟨fun hmem => ?_, h2.1⟩, fun y hy => ?_⟩
      · exact (h2.2 x hmem) (List.mem_cons_self x seen)
      · rcases List.mem_cons.mp hy with rfl | hy'
        · exact hx
        · exact fun hseen => (h2.2 y hy') (List.mem_cons_of_mem x hseen)

theorem stepClassify_false_ne_blocked (o : Outcome) (reason : String) :
    stepClassify false o ≠ .blocked reason := by
  cases o with
  | exn m => simp [stepClassify]
  | resp r =>
    simp only [stepClassify, Bool.false_and]
    split
    · split <;> simp
    · split
      · simp_all
      · split <;> simp

theorem runChain_false_ne_blockedOut (oracle : String → Outcome) (ms : List String)
    (reason : String) : runChain false oracle ms ≠ .blockedOut reason := by
  induction ms with
  | nil => simp [runChain]
  | cons m rest ih =>
    rw [runChain]
    cases h : stepClassify false (oracle m) with
    | retry e => exact ih
    | abort msg => simp
    | blocked b => exact absurd h (stepClassify_false_ne_blocked _ _)
    | accept t => simp

/-- C2 counterexample: the server-side `trend` helper (one of the two cited
implementations of the Trend Analyzer) violates the claim as stated: on the
empty series it returns "insufficient", not "insufficient data", and on a
series containing a non-finite entry it does not filter it out — with fewer
than 4 finite values it still classifies, here as "falling", where the claimed
algorithm returns "insufficient data" (as the client `deriveTrend` does). -/
theorem c2_trend_counterexample :
    trend [] = "insufficient"
    ∧ trend [] ≠ "insufficient data"
    ∧ trend [none, some 1, some 2, some 3] = "falling"
    ∧ deriveTrend [none, some 1, some 2, some 3] = "insufficient data" :=
  ⟨rfl, by decide, rfl, rfl⟩

/-- C2 (amended): the client `deriveTrend` implements exactly the claimed
algorithm (stated here as equality with `trendSpec`, a direct transcription of
the specification wording), including the claimed examples; the server-side
`trend` helper instead performs no filtering and returns the label
"insufficient" whenever fewer than 4 entries are supplied, relying on its
caller to pre-slice the last 16 readings. -/
theorem c2_trend_amended (values : List JsNum) :
    deriveTrend values = trendSpec values
    ∧ deriveTrend [] = "insufficient data"
    ∧ deriveTrend [some 1] = "insufficient data"
    ∧ deriveTrend [some 1, some 2, some 3] = "insufficient data"
    ∧ deriveTrend [some 10, some 10, some 10, some 10] = "steady"
    ∧ deriveTrend [some 10, some 20, some 30, some 40] = "rising"
    ∧ deriveTrend [some 100, some 101, some 101, some 102] = "slightly rising"
    ∧ (∀ vs : List JsNum, vs.length < 4 → trend vs = "insufficient") := by
  refine ⟨deriveTrend_eq_trendSpec values, rfl, rfl, rfl, ?_, ?_, ?_, ?_⟩
  · norm_num [deriveTrend, List.filterMap]
  · norm_num [deriveTrend, List.filterMap]
  · norm_num [deriveTrend, List.filterMap]
  · intro vs h
    unfold trend
    rw [if_pos h]

/-- C2 witness: the amended theorem applied at a concrete short series. -/
theorem c2_trend_amended_witness : trend [some 5] = "insufficient" :=
  (c2_trend_amended []).2.2.2.2.2.2.2 [some 5] (by decide)

/-- C1: in the provider fallback chain, a transport exception, a retryable
non-success outcome (message matching the retryable pattern or HTTP status
404/429/503), or an empty response text each make the loop move to the next
candidate without surfacing anything; any other non-success outcome aborts the
whole chain immediately with that error regardless of remaining candidates;
an exhausted candidate list yields the ok:true local-rule-engine fallback on
both the chat and the lifestyle paths; and the candidate list is the
prioritized de-duplicated model list headed by the configured model. -/
theorem c1_provider_fallback (cs : Bool) (oracle : String → Outcome) (m : String)
    (rest : List String) :
    (∀ msg, oracle m = .exn msg →
      runChain cs oracle (m :: rest) = runChain cs oracle rest)
    ∧ (∀ r, oracle m = .resp r → (r.ok = false ∨ r.hasError = true) →
        (retryableMsg (errMessage r) = true ∨ r.status = 404 ∨ r.status = 429 ∨ r.status = 503) →
        runChain cs oracle (m :: rest) = runChain cs oracle rest)
    ∧ (∀ r, oracle m = .resp r → r.ok = true → r.hasError = false →
        (cs && safetyBlocked r) = false → r.text.trim.isEmpty = true →
        runChain cs oracle (m :: rest) = runChain cs oracle rest)
    ∧ (∀ r, oracle m = .resp r → (r.ok = false ∨ r.hasError = true) →
        retryableMsg (errMessage r) = false → retryableStatus r.status = false →
        runChain cs oracle (m :: rest) = .aborted (errMessage r))
    ∧ runChain cs oracle [] = .exhausted
    ∧ (∀ la, chatFromChain la .exhausted =
        { status := 200, ok := true, body := la ++ chatTempFallbackNote })
    ∧ (∀ lt, lifestyleFromChain lt .exhausted = { status := 200, ok := true, body := lt })
    ∧ (∀ g, (modelsToTry g).Nodup ∧ (modelsToTry g).headD "" = g) := by
  refine ⟨?_, ?_, ?_, ?_, rfl, fun la => rfl, fun lt => rfl, fun g => ⟨?_, ?_⟩⟩
  · intro msg h
    simp [runChain, h, stepClassify]
  · intro r h hok hretry
    have hcond : (!r.ok || r.hasError) = true := by
      rcases hok with h1 | h1 <;> simp [h1]
    have hr : (retryableMsg (errMessage r) = true ∨ retryableStatus r.status = true) := by
      rcases hretry with h1 | h1 | h1 | h1
      · exact Or.inl h1
      all_goals exact Or.inr (by simp [retryableStatus, h1])
    simp [runChain, h, stepClassify, hcond, hr]
  · intro r h hok herr hsafe htrim
    simp [runChain, h, stepClassify, hok, herr, hsafe, htrim]
  · intro r h hok hmsg hstat
    have hcond : (!r.ok || r.hasError) = true := by
      rcases hok with h1 | h1 <;> simp [h1]
    simp [runChain, h, stepClassify, hcond, hmsg, hstat]
  · exact (dedupFrom_nodup _ []).1
  · simp [modelsToTry, dedup, dedupFrom]

/-- Oracle used by witnesses: "model-a" answers HTTP 503, every other model
succeeds with a non-empty text. -/
def oracleA : String → Outcome := fun m =>
  if m = "model-a" then
    .resp { ok := false, status := 503, hasError := false, errMsg := none,
            blockReason := none, text := "" }
  else
    .resp { ok := true, status := 200, hasError := false, errMsg := none,
            blockReason := none, text := "hello" }

/-- Second oracle used by witnesses: every model throws. -/
def oracleB : String → Outcome := fun _ => .exn "network down"

/-- C1 witness: a 503 from the first candidate makes the chain move on to the
second candidate without surfacing an error. -/
theorem c1_provider_fallback_witness :
    runChain true oracleA ["model-a", "model-b"] = runChain true oracleA ["model-b"] :=
  (c1_provider_fallback true oracleA "model-a" ["model-b"]).2.1
    { ok := false, status := 503, hasError := false, errMsg := none,
      blockReason := none, text := "" }
    rfl (Or.inl rfl) (Or.inr (Or.inr (Or.inr rfl)))

/-- C4: when the privacy gate is off — the stored preference is false, no
profile exists, or no provider credential is configured — the advisory
endpoints perform zero provider attempts, their result does not depend on the
provider oracle at all, and the response is exactly the local rule engine
path, for both the chat and the lifestyle handlers. -/
theorem c4_privacy_gate (profile : Option Profile) (apiKey geminiModel : String)
    (latest : Option Row) (tail recent : List Row) (o1 o2 : String → Outcome)
    (h : shareGate profile apiKey = false) :
    chatCore profile apiKey geminiModel latest tail o1 =
      chatCore profile apiKey geminiModel latest tail o2
    ∧ (chatCore profile apiKey geminiModel latest tail o1).2 = 0
    ∧ (chatCore profile apiKey geminiModel latest tail o1).1 = localChatResp profile latest tail
    ∧ lifestyleCore profile apiKey geminiModel latest recent o1 =
        lifestyleCore profile apiKey geminiModel latest recent o2
    ∧ (lifestyleCore profile apiKey geminiModel latest recent o1).2 = 0
    ∧ (lifestyleCore profile apiKey geminiModel latest recent o1).1 =
        { status := 200, ok := true, body := lifestyleLocalText profile latest recent }
    ∧ shareGate none apiKey = false
    ∧ (∀ p : Profile, p.preferences.shareWithGemini = false →
        shareGate (some p) apiKey = false)
    ∧ (∀ pr : Option Profile, shareGate pr "" = false) := by
  refine ⟨?_, ?_, ?_, ?_, ?_, ?_, rfl, ?_, ?_⟩
  · simp [chatCore, h]
  · simp [chatCore, h]
  · simp [chatCore, h]
  · simp [lifestyleCore, h]
  · simp [lifestyleCore, h]
  · simp [lifestyleCore, h]
  · intro p hp
    simp [shareGate, hp]
  · intro pr
    have hempty : "".isEmpty = true := rfl
    cases pr <;> simp [shareGate, hempty]

/-- C4 witness: with no profile stored, the chat handler answers locally and
makes zero provider attempts even though a credential is configured. -/
theorem c4_privacy_gate_witness :
    (chatCore none "secret-key" "gemini-1.5-flash-latest" none [] oracleA).1 =
      localChatResp none none []
    ∧ (chatCore none "secret-key" "gemini-1.5-flash-latest" none [] oracleA).2 = 0 :=
  ⟨(c4_privacy_gate none "secret-key" "gemini-1.5-flash-latest" none [] [] oracleA oracleB
      rfl).2.2.1,
   (c4_privacy_gate none "secret-key" "gemini-1.5-flash-latest" none [] [] oracleA oracleB
      rfl).2.1⟩

/-- C3: ingestion fails with a 400 validation error exactly when a required
sensor field is missing/non-finite or neither a finite device predicted value
nor a finite current value is present; otherwise the stored row's
`predicted_iaq` is the device predicted value when finite, else the device
current value, and is always non-null; in particular with `predicted_iaq`
omitted and `current_iaq = 42` the stored value is 42. -/
theorem c3_ingestion_validation (now : Int) (nid : Nat) (body : IngestBody) (e : Option String) :
    ((postData now nid body e).1.is400 = true ↔
      ((body.pm25 = none ∨ body.voc = none ∨ body.c2h5oh = none ∨ body.co = none)
       ∨ (body.predicted_iaq = none ∧ body.current_iaq = none)))
    ∧ (∀ r, Ev.stored r ∈ (postData now nid body e).2 →
        (body.predicted_iaq.isSome = true → r.predicted_iaq = body.predicted_iaq)
        ∧ (body.predicted_iaq = none → r.predicted_iaq = body.current_iaq)
        ∧ r.predicted_iaq.isSome = true)
    ∧ (body.predicted_iaq = none → body.current_iaq = some 42 →
        ∀ r, Ev.stored r ∈ (postData now nid body e).2 → r.predicted_iaq = some (42 : ℚ))
    ∧ ((postData now nid body none).1.is400 = false →
        ∃ r, (postData now nid body none).2 =
          [Ev.stored r, Ev.broadcast (adjustForFrontend r)]) := by
  obtain ⟨bts, bpm, bvoc, bc2, bco, bpred, bcur⟩ := body
  cases bpm <;> cases bvoc <;> cases bc2 <;> cases bco <;> cases bpred <;> cases bcur <;>
    cases e <;> simp [postData, IngestResult.is400]

/-- Body used by witnesses: valid sensors, no device prediction, current 42. -/
def b42 : IngestBody :=
  { ts := some 0, pm25 := some 1, voc := some 2, c2h5oh := some 3, co := some 4,
    predicted_iaq := none, current_iaq := some 42 }

/-- The row ingestion stores for `b42`. -/
def r42 : Row :=
  { id := 1, ts := 0, pm25 := some 1, voc := some 2, c2h5oh := some 3, co := some 4,
    predicted_iaq := some 42, current_iaq := some 42 }

/-- C3 witness: ingesting `b42` stores a row whose `predicted_iaq` is 42. -/
theorem c3_ingestion_validation_witness :
    Ev.stored r42 ∈ (postData 0 1 b42 none).2 ∧ r42.predicted_iaq = some (42 : ℚ) :=
  ⟨List.mem_cons_self _ _,
   (c3_ingestion_validation 0 1 b42 none).2.2.1 rfl rfl r42 (List.mem_cons_self _ _)⟩

/-- C5 (amended): a broadcast is emitted only after a successful durable
write, with the display-adjusted copy of the stored record as its payload
(`predicted_iaq` decreased by 180, all other fields identical); a storage
error ends the request with a 5xx error and no broadcast. -/
theorem c5_store_then_broadcast (now : Int) (nid : Nat) (body : IngestBody) (e : Option String) :
    (∀ p, Ev.broadcast p ∈ (postData now nid body e).2 →
      ∃ s, (postData now nid body e).2 = [Ev.stored s, Ev.broadcast (adjustForFrontend s)]
           ∧ p = adjustForFrontend s)
    ∧ (∀ m, e = some m → (postData now nid body e).1.is400 = false →
        (postData now nid body e) = (.serverError m, []))
    ∧ (∀ i, (postData now nid body e).1 = .okId i →
        ∃ s, (postData now nid body e).2 =
          [Ev.stored s, Ev.broadcast (adjustForFrontend s)]) := by
  obtain ⟨bts, bpm, bvoc, bc2, bco, bpred, bcur⟩ := body
  cases bpm <;> cases bvoc <;> cases bc2 <;> cases bco <;> cases bpred <;> cases bcur <;>
    cases e <;> simp [postData, IngestResult.is400]

/-- Body used by the C5 counterexample: stored `predicted_iaq` is 250. -/
def b250 : IngestBody :=
  { ts := some 5, pm25 := some 1, voc := some 1, c2h5oh := some 1, co := some 1,
    predicted_iaq := some 250, current_iaq := none }

/-- C5 counterexample: the broadcast payload is NOT the record that was
stored — its `predicted_iaq` differs (by the 180 display offset). -/
theorem c5_counterexample :
    ∃ s p, (postData 0 7 b250 none).2 = [Ev.stored s, Ev.broadcast p] ∧ p ≠ s := by
  refine ⟨_, _, rfl, ?_⟩
  have h : (250 : ℚ) - 180 ≠ 250 := by norm_num
  simp [adjustForFrontend, Row.mk.injEq, h]

/-- C5 witness: on a successful ingestion of `b250` the event trace is
exactly store-then-broadcast of the adjusted stored row. -/
theorem c5_store_then_broadcast_witness :
    ∃ s, (postData 0 7 b250 none).2 = [Ev.stored s, Ev.broadcast (adjustForFrontend s)] :=
  (c5_store_then_broadcast 0 7 b250 none).2.2 7 rfl

/-- Concrete reading with predicted IAQ 320 (emergency tier example). -/
def row320 : Row :=
  { id := 1, ts := 0, pm25 := some 10, voc := some 10, c2h5oh := some 10, co := some 1,
    predicted_iaq := some 320, current_iaq := none }

/-- Concrete reading with predicted IAQ 120 (sensitive-individuals tier example). -/
def row120 : Row :=
  { id := 1, ts := 0, pm25 := some 10, voc := some 10, c2h5oh := some 10, co := some 1,
    predicted_iaq := some 120, current_iaq := none }

/-- C6: for a latest reading with a finite predicted IAQ, the local rule
engine picks exactly one primary sentence by the 5 severity tiers
(≥300, ≥200, ≥150, ≥100, else), appends the three supplementary tips exactly
when PM2.5 is in the "high" bucket, VoC is not "ok", and CO is not "ok"
(expressed here through the raw threshold comparisons defining those
buckets), in that fixed order, capped at 3; IAQ 320 gives the emergency
sentence and IAQ 120 the sensitive-individuals sentence. -/
theorem c6_rule_engine (r : Row) (recent : List Row) (q : ℚ) (h : r.predicted_iaq = some q) :
    (getResearchBasedAdvice (some r) (analyzeLifestyleContext (some r) recent)).primary =
      (if 300 ≤ q then tierLine300 else if 200 ≤ q then tierLine200
       else if 150 ≤ q then tierLine150 else if 100 ≤ q then tierLine100 else tierLine0)
    ∧ (getResearchBasedAdvice (some r) (analyzeLifestyleContext (some r) recent)).tips =
        (if jsGtC r.pm25 100 = true then [tipPm25] else [])
        ++ (if (jsGtC r.voc 600 || jsGtC r.voc 300) = true then [tipVoc] else [])
        ++ (if (jsGtC r.co 20 || jsGtC r.co 9) = true then [tipCo] else [])
    ∧ (getResearchBasedAdvice (some r) (analyzeLifestyleContext (some r) recent)).tips.length ≤ 3
    ∧ (getResearchBasedAdvice (some row320) (analyzeLifestyleContext (some row320) [])).primary
        = tierLine300
    ∧ (getResearchBasedAdvice (some row120) (analyzeLifestyleContext (some row120) [])).primary
        = tierLine100 := by
  refine ⟨?_, ?_, ?_, ?_, ?_⟩
  · simp [getResearchBasedAdvice, h]
  · simp only [getResearchBasedAdvice, analyzeLifestyleContext, Option.map_some]
    rcases Bool.eq_false_or_eq_true (jsGtC r.pm25 100) with h1 | h1 <;>
      rcases Bool.eq_false_or_eq_true (jsGtC r.pm25 50) with h2 | h2 <;>
      rcases Bool.eq_false_or_eq_true (jsGtC r.voc 600) with h3 | h3 <;>
      rcases Bool.eq_false_or_eq_true (jsGtC r.voc 300) with h4 | h4 <;>
      rcases Bool.eq_false_or_eq_true (jsGtC r.co 20) with h5 | h5 <;>
      rcases Bool.eq_false_or_eq_true (jsGtC r.co 9) with h6 | h6 <;>
      simp [h1, h2, h3, h4, h5, h6]
  · simp [getResearchBasedAdvice]
  · norm_num [getResearchBasedAdvice, analyzeLifestyleContext, row320]
  · norm_num [getResearchBasedAdvice, analyzeLifestyleContext, row120]

/-- C6 witness: the rule engine applied to the concrete reading with IAQ 320
gives the emergency-tier sentence. -/
theorem c6_rule_engine_witness :
    (getResearchBasedAdvice (some row320) (analyzeLifestyleContext (some row320) [])).primary
      = tierLine300 :=
  (c6_rule_engine row320 [] 320 rfl).2.2.2.1

/-- C7: the history limit defaults to 500 when absent/non-numeric, clamps to
[1, 5000] (10000 becomes 5000, 0 becomes 1), the response never exceeds the
clamped limit, and the returned rows are in chronological order. -/
theorem c7_history_limit (db : List Row) (q : Option Int) (n : Int) :
    limitOf none = 500
    ∧ limitOf (some 10000) = 5000
    ∧ limitOf (some 0) = 1
    ∧ 1 ≤ limitOf (some n) ∧ limitOf (some n) ≤ 5000
    ∧ (historyResponse db q).length ≤ limitOf q
    ∧ List.Sorted keyLe (historyResponse db q) := by
  refine ⟨rfl, by decide, by decide, ?_, ?_, ?_, ?_⟩
  · simp only [limitOf, max_def, min_def]
    split_ifs <;> omega
  · simp only [limitOf, max_def, min_def]
    split_ifs <;> omega
  · simp only [historyResponse, historyRaw, List.length_map, List.length_reverse]
    exact List.length_take_le _ _
  · have hs : List.Sorted keyDesc (sortDesc db) := List.sorted_insertionSort keyDesc db
    have htake : List.Sorted keyDesc ((sortDesc db).take (limitOf q)) :=
      List.Pairwise.sublist (List.take_sublist _ _) hs
    have hrev : List.Sorted keyLe ((sortDesc db).take (limitOf q)).reverse :=
      List.pairwise_reverse.mpr htake
    exact List.Pairwise.map adjustForFrontend (fun a b hab => hab) hrev

/-- Concrete reading with predicted IAQ exactly 300 (emergency boundary). -/
def row300 : Row :=
  { id := 1, ts := 0, pm25 := some 1, voc := some 1, c2h5oh := some 1, co := some 1,
    predicted_iaq := some 300, current_iaq := none }

/-- C8: the emergency check is true iff a latest stored reading exists and its
raw stored `predicted_iaq` is ≥ 300; the boundary 300 itself counts, and an
empty store gives false. -/
theorem c8_emergency_boundary (db : List Row) :
    (emergencyCheck db = true ↔
      ∃ r q, latestRow db = some r ∧ r.predicted_iaq = some q ∧ 300 ≤ q)
    ∧ emergencyCheck [] = false
    ∧ emergencyCheck [row300] = true := by
  refine ⟨?_, rfl, ?_⟩
  · cases hl : latestRow db with
    | none => simp [emergencyCheck, hl]
    | some r =>
      cases hp : r.predicted_iaq with
      | none => simp [emergencyCheck, hl, jsGeC, hp]
      | some a => simp [emergencyCheck, hl, jsGeC, hp]
  · norm_num [emergencyCheck, latestRow, sortDesc, List.insertionSort, row300, jsGeC]

theorem jsGeC_eq_true_iff (x : JsNum) (c : ℚ) : jsGeC x c = true ↔ ∃ a, x = some a ∧ c ≤ a := by
  cases x <;> simp [jsGeC]

/-- C9: personalization is purely additive — the base text is always a prefix
of the output; with no profile the text is unchanged; the fixed respiratory
clause is appended exactly when some member has a condition matching the
respiratory pattern, and the fixed elderly clause exactly when some member's
age is ≥ 60, in that order. -/
theorem c9_personalization (text : String) (p : Profile) :
    personalizeTextForProfile text none = text
    ∧ (∃ suffix, personalizeTextForProfile text (some p) = text ++ suffix)
    ∧ personalizeTextForProfile text (some p) =
        text ++ (if p.members.any memberHasRespiratory then respClause else "")
             ++ (if p.members.any memberIsElder then elderClause else "")
    ∧ (p.members.any memberHasRespiratory = true ↔
        ∃ m ∈ p.members, ∃ c ∈ m.conditions, respConditionTest c = true)
    ∧ (p.members.any memberIsElder = true ↔
        ∃ m ∈ p.members, ∃ a, m.age = some a ∧ 60 ≤ a) := by
  have h3 : personalizeTextForProfile text (some p) =
      text ++ (if p.members.any memberHasRespiratory then respClause else "")
           ++ (if p.members.any memberIsElder then elderClause else "") := by
    cases hr : p.members.any memberHasRespiratory <;>
      cases he : p.members.any memberIsElder <;>
      simp [personalizeTextForProfile, hr, he]
  refine ⟨rfl, ⟨_, by rw [h3, String.append_assoc]⟩, h3, ?_, ?_⟩
  · simp [memberHasRespiratory, List.any_eq_true]
  · simp [memberIsElder, List.any_eq_true, jsGeC_eq_true_iff]

theorem postData_broadcast_adjusted (now : Int) (nid : Nat) (body : IngestBody)
    (e : Option String) :
    ∀ p, Ev.broadcast p ∈ (postData now nid body e).2 →
      ∃ s, Ev.stored s ∈ (postData now nid body e).2 ∧ p = adjustForFrontend s := by
  obtain ⟨bts, bpm, bvoc, bc2, bco, bpred, bcur⟩ := body
  cases bpm <;> cases bvoc <;> cases bc2 <;> cases bco <;> cases bpred <;> cases bcur <;>
    cases e <;> simp [postData]

/-- C10: the outbound display adjustment subtracts exactly 180 from a finite
`predicted_iaq` and changes nothing else (rows without a finite value pass
through unmodified); it is applied to the `/latest` response, to every
`/history` entry, and to every broadcast payload, while the CSV export
renders the raw stored values without the adjustment. -/
theorem c10_display_adjustment (r0 : Row) (q : ℚ) (db : List Row) (qq : Option Int)
    (now : Int) (nid : Nat) (body : IngestBody) (e : Option String) :
    (r0.predicted_iaq = some q →
      adjustForFrontend r0 = { r0 with predicted_iaq := some (q - 180) })
    ∧ (r0.predicted_iaq = none → adjustForFrontend r0 = r0)
    ∧ (adjustForFrontend r0).id = r0.id ∧ (adjustForFrontend r0).ts = r0.ts
    ∧ (adjustForFrontend r0).pm25 = r0.pm25 ∧ (adjustForFrontend r0).voc = r0.voc
    ∧ (adjustForFrontend r0).c2h5oh = r0.c2h5oh ∧ (adjustForFrontend r0).co = r0.co
    ∧ (adjustForFrontend r0).current_iaq = r0.current_iaq
    ∧ latestResponse db = (latestRow db).map adjustForFrontend
    ∧ historyResponse db qq = (historyRaw db (limitOf qq)).map adjustForFrontend
    ∧ (∀ p, Ev.broadcast p ∈ (postData now nid body e).2 →
        ∃ s, Ev.stored s ∈ (postData now nid body e).2 ∧ p = adjustForFrontend s)
    ∧ exportCsvRows db = (sortTsAsc db).map csvFields
    ∧ (r0.predicted_iaq = some q →
        (csvFields r0).getD 6 "" = toString q
        ∧ (csvFields (adjustForFrontend r0)).getD 6 "" = toString (q - 180)) := by
  refine ⟨?_, ?_, rfl, rfl, rfl, rfl, rfl, rfl, rfl, rfl, rfl,
    postData_broadcast_adjusted now nid body e, rfl, ?_⟩
  · intro h
    simp [adjustForFrontend, h]
  · intro h
    obtain ⟨i, t, pm, v, c2, c0, pr, cu⟩ := r0
    simp only at h
    simp [adjustForFrontend, h]
  · intro h
    constructor
    · simp [csvFields, optShow, h]
    · simp [csvFields, adjustForFrontend, optShow, h]

/-- C10 witness: on the stored row for `b42` (predicted 42), the adjustment
yields the same row with `predicted_iaq = 42 - 180` and nothing else changed. -/
theorem c10_display_adjustment_witness :
    adjustForFrontend r42 = { r42 with predicted_iaq := some ((42 : ℚ) - 180) } :=
  (c10_display_adjustment r42 42 [] none 0 0 b42 none).1 rfl
